import Mathlib

/-!
Verification of the PlexIQ scoring, ranking, safety-gate, deletion-command
and backup components, shallowly embedded from the Python source
(`plexiq/analyzer.py`, `plexiq/commands/delete.py`, `plexiq/backup.py`,
`plexiq/config.py`).

Conventions of the embedding:
* Python floats are modelled as exact rationals (`ℚ`); none of the verified
  properties depends on binary rounding.
* A Python dict field read with `.get(key, default)` is modelled as a
  structure field with that default; a field read with `.get(key)` (default
  `None`) is an `Option`.
* `datetime.fromisoformat` and `datetime.now()` are external to the
  repository; they are modelled by an explicit environment `DateEnv` carrying
  a parse function (`none` models the `ValueError` raised on a malformed
  string) and the current day number.  Date arithmetic is at day granularity,
  matching the source's use of `.days`.
* Python exceptions are modelled with `Except`; an uncaught exception of a
  scoring call is an `Except.error`.
* Decimal string formatting (`:.1f` and friends) is modelled by exact
  rational rendering; no verified property inspects the digits.
-/

namespace PlexIQ

/-- Rendering of a rational in rationale strings (models Python float
formatting; exact rather than rounded). -/
def fmtQ (q : ℚ) : String :=
  if q.den = 1 then toString q.num else toString q.num ++ "/" ++ toString q.den

/-- Substring test, modelling Python's `needle in hay`. -/
def strContains (hay needle : String) : Bool :=
  decide (needle.toList <:+: hay.toList)

/-- Python's `str.lower()`, modelled on the character list (the positional
implementation of `String.toLower` is opaque to the kernel). -/
def strLower (s : String) : String :=
  String.mk (s.data.map Char.toLower)

/-- The `plex` sub-dictionary of a metadata record, with the defaults the
analyzer applies on read (`.get('view_count', 0)`, `.get('added_at')`,
`.get('last_viewed_at')`).  A record whose `plex` key is missing behaves
exactly like the all-default value. -/
structure PlexData where
  view_count : Nat := 0
  added_at : Option String := none
  last_viewed_at : Option String := none
deriving DecidableEq

/-- The `media` sub-dictionary (`.get('size_bytes', 0)`,
`.get('resolution', '')`, `.get('video_codec', '')`). -/
structure MediaInfo where
  size_bytes : Nat := 0
  resolution : String := ""
  video_codec : String := ""
deriving DecidableEq

/-- The `ratings` sub-dictionary: each entry is either a number or absent
(`dict.get` returns `None` for an absent key). -/
structure Ratings where
  imdb : Option ℚ := none
  tmdb : Option ℚ := none
  rotten_tomatoes : Option ℚ := none
deriving DecidableEq

/-- A metadata record as consumed and produced by `MediaAnalyzer`.  The three
`deletion_*` fields model the keys `analyze_items` writes into the caller's
dictionary; they are absent (`none`) on input. -/
structure Item where
  title : String := ""
  year : Option Int := none
  plex : PlexData := {}
  media : MediaInfo := {}
  ratings : Ratings := {}
  deletion_score : Option ℚ := none
  deletion_rationale : Option (List String) := none
  deletion_recommended : Option Bool := none
deriving DecidableEq

/-- The five scoring weights of the `weights` config section
(`config.py` `_load_config`). -/
structure Weights where
  play_count : ℚ
  ratings : ℚ
  size : ℚ
  age : ℚ
  quality : ℚ
deriving DecidableEq

/-- The `thresholds` config section. -/
structure Thresholds where
  min_deletion_score : ℚ
  never_delete_rating : ℚ
deriving DecidableEq

/-- The configuration slice the analyzer reads. -/
structure AnalyzerConfig where
  weights : Weights
  thresholds : Thresholds
deriving DecidableEq

/-- Sum of the five weights, as in `sum(weights.values())`
(`config.py` line 106). -/
def weightSum (w : Weights) : ℚ :=
  w.play_count + w.ratings + w.size + w.age + w.quality

/-- The weight validation of `Config._validate_config` (lines 104-111):
accept iff `0.95 <= total_weight <= 1.05`. -/
def validateWeights (w : Weights) : Bool :=
  decide (95 / 100 ≤ weightSum w ∧ weightSum w ≤ 105 / 100)

/-- The threshold validation of `Config._validate_config` (lines 113-124). -/
def validateThresholds (t : Thresholds) : Bool :=
  decide (0 ≤ t.min_deletion_score ∧ t.min_deletion_score ≤ 1
    ∧ 0 ≤ t.never_delete_rating ∧ t.never_delete_rating ≤ 10)

/-- Full configuration validation for the sections the analyzer uses. -/
def validateConfig (c : AnalyzerConfig) : Bool :=
  validateWeights c.weights && validateThresholds c.thresholds

/-- Environment abstracting `datetime`: `parseDate` models
`datetime.fromisoformat (s.replace('Z', '+00:00'))` returning the day number,
with `none` for a string on which it raises `ValueError`; `today` models
`datetime.now()` at day granularity. -/
structure DateEnv where
  parseDate : String → Option Int
  today : Int

/-- Errors a scoring call can raise: the `ValueError` of
`datetime.fromisoformat` on a malformed date string, and the
`StatisticsError` of `statistics.mean` on an empty list. -/
inductive ScoreError where
  | valueError (input : String)
  | statisticsError
deriving DecidableEq

/-- Python truthiness of an optional string (`if not added_at_str`): both
`None` and the empty string are falsy. -/
def truthy (o : Option String) : Option String :=
  match o with
  | none => none
  | some s => if s = "" then none else some s

/-- The exact arithmetic of `statistics.mean` on rationals:
sum divided by length. -/
def listMean (l : List ℚ) : ℚ :=
  l.sum / (l.length : ℚ)

/-- `MediaAnalyzer._score_play_count` (analyzer.py lines 134-145). -/
def scorePlayCount (item : Item) : ℚ × String :=
  let vc := item.plex.view_count
  if vc = 0 then
    (1, "Play count: 0 (never watched) → high deletion priority")
  else if vc = 1 then
    (7 / 10, "Play count: 1 (watched once) → moderate priority")
  else if vc ≤ 3 then
    (2 / 5, "Play count: " ++ toString vc ++ " (occasional viewer) → low priority")
  else
    (1 / 10, "Play count: " ++ toString vc ++ " (frequently watched) → very low priority")

/-- The list `available_ratings` built by `_score_ratings`
(analyzer.py lines 152-167): IMDb and TMDb values as given, a
Rotten-Tomatoes value divided by 10, each only when present. -/
def scoringRatingList (r : Ratings) : List ℚ :=
  (match r.imdb with | some v => [v] | none => [])
    ++ (match r.tmdb with | some v => [v] | none => [])
    ++ (match r.rotten_tomatoes with | some v => [v / 10] | none => [])

/-- The `rating_sources` labels built alongside. -/
def ratingSourceLabels (r : Ratings) : List String :=
  (match r.imdb with | some v => ["IMDb " ++ fmtQ v] | none => [])
    ++ (match r.tmdb with | some v => ["TMDb " ++ fmtQ v] | none => [])
    ++ (match r.rotten_tomatoes with | some v => ["RT " ++ fmtQ v ++ "%"] | none => [])

/-- `MediaAnalyzer._score_ratings` (analyzer.py lines 147-191), including the
never-delete protection that forces the component to 0. -/
def scoreRatings (cfg : AnalyzerConfig) (item : Item) : ℚ × String :=
  let available := scoringRatingList item.ratings
  if available = [] then
    (1 / 2, "Ratings: No external ratings available → neutral score")
  else
    let avg := listMean available
    let sources := String.intercalate ", " (ratingSourceLabels item.ratings)
    if cfg.thresholds.never_delete_rating ≤ avg then
      (0, "Ratings: " ++ sources ++ " (avg " ++ fmtQ avg ++ "/10) → PROTECTED (highly rated)")
    else
      let score := 1 - avg / 10
      let priority :=
        if 7 ≤ avg then "low" else if 5 ≤ avg then "moderate" else "high"
      (score, "Ratings: " ++ sources ++ " (avg " ++ fmtQ avg ++ "/10) → " ++ priority ++ " priority")

/-- `MediaAnalyzer._score_size` (analyzer.py lines 193-205); `size_gb` is the
exact quotient by 1024³. -/
def scoreSize (item : Item) : ℚ × String :=
  let size_gb : ℚ := (item.media.size_bytes : ℚ) / (1024 ^ 3 : ℚ)
  if size_gb < 1 then
    (1 / 5, "Size: " ++ fmtQ size_gb ++ " GB (small) → low space recovery")
  else if size_gb < 5 then
    (2 / 5, "Size: " ++ fmtQ size_gb ++ " GB (medium) → moderate space recovery")
  else if size_gb < 10 then
    (7 / 10, "Size: " ++ fmtQ size_gb ++ " GB (large) → good space recovery")
  else
    (1, "Size: " ++ fmtQ size_gb ++ " GB (very large) → excellent space recovery")

/-- `MediaAnalyzer._score_age` (analyzer.py lines 207-241).  A present but
malformed date string makes `datetime.fromisoformat` raise `ValueError`,
which propagates (there is no handler in the source); a missing or empty
string degrades to the branch defaults. -/
def scoreAge (env : DateEnv) (item : Item) : Except ScoreError (ℚ × String) :=
  match truthy item.plex.added_at with
  | none => Except.ok (1 / 2, "Age: Unknown add date → neutral score")
  | some addedStr =>
    match env.parseDate addedStr with
    | none => Except.error (ScoreError.valueError addedStr)
    | some added =>
      let daysSinceAdded := env.today - added
      match truthy item.plex.last_viewed_at with
      | none =>
        if 365 < daysSinceAdded then
          Except.ok (1, "Age: Added " ++ toString daysSinceAdded
            ++ " days ago, never watched → very high priority")
        else if 180 < daysSinceAdded then
          Except.ok (4 / 5, "Age: Added " ++ toString daysSinceAdded
            ++ " days ago, never watched → high priority")
        else
          Except.ok (3 / 5, "Age: Added " ++ toString daysSinceAdded
            ++ " days ago, never watched → moderate priority")
      | some viewedStr =>
        match env.parseDate viewedStr with
        | none => Except.error (ScoreError.valueError viewedStr)
        | some viewed =>
          let daysSinceViewed := env.today - viewed
          if 730 < daysSinceViewed then
            Except.ok (9 / 10, "Age: Last watched " ++ toString daysSinceViewed
              ++ " days ago → very high priority")
          else if 365 < daysSinceViewed then
            Except.ok (3 / 5, "Age: Last watched " ++ toString daysSinceViewed
              ++ " days ago → moderate priority")
          else if 180 < daysSinceViewed then
            Except.ok (2 / 5, "Age: Last watched " ++ toString daysSinceViewed
              ++ " days ago → low priority")
          else
            Except.ok (1 / 10, "Age: Last watched " ++ toString daysSinceViewed
              ++ " days ago → very low priority")

/-- `MediaAnalyzer._score_quality` (analyzer.py lines 243-278). -/
def scoreQuality (item : Item) : ℚ × String :=
  let resolution := strLower item.media.resolution
  let codec := strLower item.media.video_codec
  let resPair : ℚ × String :=
    if strContains resolution "sd" || strContains resolution "480" then
      (1, "SD/480p")
    else if strContains resolution "720" then (3 / 5, "720p")
    else if strContains resolution "1080" then (3 / 10, "1080p")
    else if strContains resolution "4k" || strContains resolution "2160" then
      (0, "4K")
    else (1 / 2, "unknown")
  let codecPair : ℚ × String :=
    if strContains codec "mpeg2" || strContains codec "h263" then
      (3 / 10, codec ++ " (old codec)")
    else if codec ≠ "" then (0, codec)
    else (0, "unknown codec")
  let final := min 1 (resPair.1 + codecPair.1)
  (final, "Quality: " ++ resPair.2 ++ ", " ++ codecPair.2 ++ " → score " ++ fmtQ final)

/-- `MediaAnalyzer.compute_deletion_score` (analyzer.py lines 78-132): the
five components in fixed order, the weighted total, and the rationale with
the overall summary inserted first.  A `ValueError` from date parsing in the
age component propagates. -/
def computeDeletionScore (cfg : AnalyzerConfig) (env : DateEnv) (item : Item) :
    Except ScoreError (ℚ × List String) :=
  let play := scorePlayCount item
  let rating := scoreRatings cfg item
  let size := scoreSize item
  match scoreAge env item with
  | Except.error e => Except.error e
  | Except.ok age =>
    let quality := scoreQuality item
    let total :=
      play.1 * cfg.weights.play_count
        + rating.1 * cfg.weights.ratings
        + size.1 * cfg.weights.size
        + age.1 * cfg.weights.age
        + quality.1 * cfg.weights.quality
    Except.ok (total,
      ["Overall deletion score: " ++ fmtQ total ++ "/1.000",
        play.2, rating.2, size.2, age.2, quality.2])

/-- The list comprehension of `_should_recommend_deletion`
(analyzer.py lines 300-306): unlike `_score_ratings`, it always contributes a
Rotten-Tomatoes term, `ratings.get('rotten_tomatoes', 0) / 10.0`, which is
`0.0` when the entry is absent. -/
def gateRatingList (r : Ratings) : List ℚ :=
  [r.imdb, r.tmdb, some (r.rotten_tomatoes.getD 0 / 10)].filterMap id

/-- `MediaAnalyzer._should_recommend_deletion` (analyzer.py lines 280-314). -/
def shouldRecommendDeletion (t : Thresholds) (item : Item) (score : ℚ) : Bool :=
  if score < t.min_deletion_score then false
  else
    let available := gateRatingList item.ratings
    if available = [] then true
    else
      let avg := listMean available
      if t.never_delete_rating ≤ avg then false else true

/-- The enrichment `analyze_items` performs on one record
(analyzer.py lines 55-62): the three `deletion_*` keys are written into the
record, every other field is untouched.  On the (uncaught) error path the
record is returned unchanged; `analyzeList` below never uses that branch's
result. -/
def enrichItem (cfg : AnalyzerConfig) (env : DateEnv) (item : Item) : Item :=
  match computeDeletionScore cfg env item with
  | Except.error _ => item
  | Except.ok sr =>
    { item with
        deletion_score := some sr.1
        deletion_rationale := some sr.2
        deletion_recommended := some (shouldRecommendDeletion cfg.thresholds item sr.1) }

/-- The per-item loop of `analyze_items`: stops at the first uncaught
exception, otherwise returns the enriched records in input order. -/
def analyzeList (cfg : AnalyzerConfig) (env : DateEnv) : List Item → Except ScoreError (List Item)
  | [] => Except.ok []
  | item :: rest =>
    match computeDeletionScore cfg env item with
    | Except.error e => Except.error e
    | Except.ok _ =>
      match analyzeList cfg env rest with
      | Except.error e => Except.error e
      | Except.ok rest2 => Except.ok (enrichItem cfg env item :: rest2)

/-- Sort key used by `analyze_items`: `x['deletion_score']` (always present
after enrichment; `0` is never read on the paths we verify). -/
def scoreKey (item : Item) : ℚ :=
  item.deletion_score.getD 0

/-- The stable descending sort `analyzed_items.sort(key=..., reverse=True)`
(analyzer.py lines 64-65).  Python's `list.sort` is a stable sort;
`List.insertionSort` with this relation is a stable descending sort, so the
two have the same observable behaviour. -/
def sortByScoreDesc (l : List Item) : List Item :=
  List.insertionSort (fun a b => scoreKey b ≤ scoreKey a) l

/-- `MediaAnalyzer.analyze_items` (analyzer.py lines 37-76), as explicit
state passing: the first list of the result is the caller's record list after
the in-place mutation (input order), the second is the returned list.  After
sorting, the summary statistics call `statistics.mean(scores)`, which raises
`StatisticsError` on an empty input batch. -/
def analyzeItems (cfg : AnalyzerConfig) (env : DateEnv) (sortByScore : Bool)
    (items : List Item) : Except ScoreError (List Item × List Item) :=
  match analyzeList cfg env items with
  | Except.error e => Except.error e
  | Except.ok enriched =>
    let result := if sortByScore then sortByScoreDesc enriched else enriched
    if enriched.isEmpty then Except.error ScoreError.statisticsError
    else Except.ok (enriched, result)

/-- Both date fields of a record are absent, empty, or parseable in `env`
(the condition under which `_score_age` does not raise). -/
def dateFieldOk (env : DateEnv) (o : Option String) : Bool :=
  match o with
  | none => true
  | some s => s = "" || (env.parseDate s).isSome

/-- Score of a successful scoring call. -/
def scoreOf (r : Except ScoreError (ℚ × List String)) : Option ℚ :=
  match r with
  | Except.ok sr => some sr.1
  | Except.error _ => none

/-- Rationale of a successful scoring call. -/
def rationaleOf (r : Except ScoreError (ℚ × List String)) : List String :=
  match r with
  | Except.ok sr => sr.2
  | Except.error _ => []

/-! ### The delete command's control flow

`plexiq/commands/delete.py`, `delete` (lines 51-172).  After the deletion
plan is displayed and backed up (lines 112-146), the control flow over the
two safety flags and the interactive answer is (lines 148-166):

* if no item meets the criteria, the command returns early, persisting
  nothing (lines 118-120);
* otherwise the plan record is persisted (lines 138-146);
* the `Confirm.ask` prompt is shown only when `not dry_run and confirm`
  (line 149); a declined prompt cancels the run (lines 155-157);
* with `dry_run` the items are only logged (lines 160-163); otherwise
  `_perform_deletion` is invoked (lines 164-166).

Reaching `_perform_deletion` is the `EXECUTING` state of the spec's state
machine. -/

/-- Observable outcome of one `delete` invocation. -/
structure DeleteOutcome where
  planPersisted : Bool
  prompted : Bool
  executed : Bool
deriving DecidableEq

/-- The post-analysis control flow of the `delete` command.  `dryRun` is the
dry-run flag (default true; `execute = not dryRun`), `confirm` the confirm
flag (default true), `userConfirmed` the answer to the interactive prompt
(read only when the prompt is shown), `hasItems` whether any item met the
deletion criteria. -/
def deleteControlFlow (dryRun confirm userConfirmed hasItems : Bool) : DeleteOutcome :=
  if !hasItems then ⟨false, false, false⟩
  else
    let prompted := !dryRun && confirm
    if prompted && !userConfirmed then ⟨true, true, false⟩
    else if dryRun then ⟨true, prompted, false⟩
    else ⟨true, prompted, true⟩

/-! ### The backup ledger

`plexiq/backup.py`.  Payloads are JSON values; `json.dumps(data,
sort_keys=True)` is the canonical serialization (object keys sorted).  The
SHA-256 hex digest is modelled as an ideal (collision-free) digest function:
the only properties the source relies on are determinism and injectivity. -/

/-- JSON-serializable payloads. -/
inductive Json where
  | null
  | bool (b : Bool)
  | num (q : ℚ)
  | str (s : String)
  | arr (elems : List Json)
  | obj (fields : List (String × Json))

/-- Keys of an object sorted, as `sort_keys=True` does. -/
def sortKeys (fields : List (String × Json)) : List (String × Json) :=
  List.insertionSort (fun a b => a.1 ≤ b.1) fields

/-- Permuting a list preserves its `sizeOf` (termination helper for
`dumps`, whose object case serializes the key-sorted field list). -/
theorem sizeOf_of_perm {α : Type} [SizeOf α] {l₁ l₂ : List α} (h : l₁.Perm l₂) :
    sizeOf l₁ = sizeOf l₂ := by
  induction h with
  | nil => rfl
  | cons x _ ih => simp only [List.cons.sizeOf_spec]; omega
  | swap x y l => simp only [List.cons.sizeOf_spec]; omega
  | trans _ _ ih₁ ih₂ => omega

/-- The sorted field list has the `sizeOf` of the original. -/
theorem sizeOf_sortKeys (fields : List (String × Json)) :
    sizeOf (sortKeys fields) = sizeOf fields :=
  sizeOf_of_perm (List.perm_insertionSort _ fields)

mutual

/-- Canonical serialization of a payload, modelling
`json.dumps(data, sort_keys=True)` (string escaping abstracted). -/
def dumps : Json → String
  | Json.null => "null"
  | Json.bool true => "true"
  | Json.bool false => "false"
  | Json.num q => fmtQ q
  | Json.str s => "\"" ++ s ++ "\""
  | Json.arr elems => "[" ++ dumpsList elems ++ "]"
  | Json.obj fields => "\x7b" ++ dumpsObj (sortKeys fields) ++ "\x7d"
termination_by j => sizeOf j
decreasing_by
  all_goals simp only [Json.arr.sizeOf_spec, Json.obj.sizeOf_spec, sizeOf_sortKeys]
  all_goals omega

/-- Comma-joined serialization of array elements. -/
def dumpsList : List Json → String
  | [] => ""
  | [j] => dumps j
  | j :: rest => dumps j ++ ", " ++ dumpsList rest
termination_by l => sizeOf l
decreasing_by
  all_goals simp only [List.cons.sizeOf_spec]
  all_goals omega

/-- Comma-joined serialization of (already sorted) object fields. -/
def dumpsObj : List (String × Json) → String
  | [] => ""
  | [(k, j)] => "\"" ++ k ++ "\": " ++ dumps j
  | (k, j) :: rest => "\"" ++ k ++ "\": " ++ dumps j ++ ", " ++ dumpsObj rest
termination_by l => sizeOf l
decreasing_by
  all_goals simp only [List.cons.sizeOf_spec, Prod.mk.sizeOf_spec]
  all_goals omega

end

/-- SHA-256 hex digest over the serialized payload, modelled as an ideal
injective digest. -/
def sha256Hex (s : String) : String :=
  "sha256:" ++ s

/-- The content of one backup file (`backup_content` in `create_backup`).
`checksum` is optional because `restore_backup` guards on
`'checksum' in backup_content`: an arbitrary file on disk may lack the key. -/
structure BackupContent where
  created_at : String
  backup_type : String
  metadata : List (String × Json)
  data : Json
  checksum : Option String

/-- The distinct integrity error of `restore_backup` (the `ValueError`
raised on a checksum mismatch), carrying the stored and the recomputed
digests. -/
inductive BackupError where
  | checksumMismatch (expected got : String)
deriving DecidableEq

/-- `BackupManager.create_backup` (backup.py lines 38-89): the checksum is
the digest of the canonical serialization of the payload alone. -/
def createBackup (createdAt backupType : String) (metadata : List (String × Json))
    (data : Json) : BackupContent :=
  { created_at := createdAt
    backup_type := backupType
    metadata := metadata
    data := data
    checksum := some (sha256Hex (dumps data)) }

/-- `BackupManager.restore_backup` (backup.py lines 91-127): with
verification requested and a `checksum` key present, the digest of the
stored payload is recomputed and compared; a mismatch raises.  Without the
key (or without verification) the content is returned as-is. -/
def restoreBackup (content : BackupContent) (verifyChecksum : Bool) :
    Except BackupError BackupContent :=
  match verifyChecksum, content.checksum with
  | true, some stored =>
    let calculated := sha256Hex (dumps content.data)
    if calculated ≠ stored then
      Except.error (BackupError.checksumMismatch stored calculated)
    else
      Except.ok content
  | _, _ => Except.ok content

/-! ### Concrete fixtures

The default configuration of `config.py` `_load_config` (weights 0.3, 0.25,
0.2, 0.15, 0.1; thresholds 0.7 and 8.0) and a concrete date environment for
witnesses and counterexamples. -/

/-- The default weights of `_load_config`. -/
def defaultWeights : Weights :=
  ⟨3 / 10, 1 / 4, 1 / 5, 3 / 20, 1 / 10⟩

/-- The default thresholds of `_load_config`. -/
def defaultThresholds : Thresholds :=
  ⟨7 / 10, 8⟩

/-- The default analyzer configuration. -/
def defaultConfig : AnalyzerConfig :=
  ⟨defaultWeights, defaultThresholds⟩

/-- A concrete date environment: one well-formed date string (parsed to day
0), everything else malformed; today is day 400. -/
def testEnv : DateEnv :=
  ⟨fun s => if s = "2023-01-01" then some 0 else none, 400⟩

/-- The data-model invariant of spec §3 on rating scales: IMDb and TMDb
entries lie in 0–10, Rotten-Tomatoes entries in 0–100 (an absent entry is
unconstrained). -/
def ratingsInRange (r : Ratings) : Bool :=
  (match r.imdb with | none => true | some v => decide (0 ≤ v ∧ v ≤ 10))
    && (match r.tmdb with | none => true | some v => decide (0 ≤ v ∧ v ≤ 10))
    && (match r.rotten_tomatoes with | none => true | some v => decide (0 ≤ v ∧ v ≤ 100))

/-- All five weights non-negative (not enforced by `_validate_config`, which
only checks the sum; needed for the score bounds). -/
def weightsNonneg (w : Weights) : Bool :=
  decide (0 ≤ w.play_count ∧ 0 ≤ w.ratings ∧ 0 ≤ w.size ∧ 0 ≤ w.age ∧ 0 ≤ w.quality)

/-- A record on which every scoring component attains its maximum 1. -/
def maxItem : Item :=
  { plex := { view_count := 0, added_at := some "2023-01-01", last_viewed_at := none },
    media := { size_bytes := 11811160064, resolution := "480", video_codec := "" },
    ratings := ⟨some 0, none, none⟩ }

/-- A weight configuration summing to 1.04, accepted by the ±0.05 tolerance
of `_validate_config`. -/
def overWeights : Weights :=
  ⟨31 / 100, 13 / 50, 21 / 100, 4 / 25, 1 / 10⟩

/-- A highly rated record (IMDb 9.2, no other source) that nevertheless
scores 0.75: large, old, never watched, low quality. -/
def protectedItem : Item :=
  { plex := { view_count := 0, added_at := some "2023-01-01", last_viewed_at := none },
    media := { size_bytes := 11811160064, resolution := "480", video_codec := "" },
    ratings := ⟨some (46 / 5), none, none⟩ }

/-- A record with a malformed (unparseable) `added_at` date string. -/
def malformedItem : Item :=
  { plex := { view_count := 0, added_at := some "not-a-date", last_viewed_at := none } }

/-- The injectivity of the modelled digest (the idealization of SHA-256 the
integrity contract relies on). -/
theorem sha256Hex_injective {a b : String} (h : sha256Hex a = sha256Hex b) : a = b := by
  have hd : ("sha256:" ++ a).data = ("sha256:" ++ b).data := congrArg String.data h
  rw [String.data_append, String.data_append] at hd
  exact String.ext (List.append_cancel_left hd)

/-- The gate's rating list is never empty: its Rotten-Tomatoes term
`ratings.get('rotten_tomatoes', 0) / 10.0` is always a number. -/
theorem gateRatingList_ne_nil (r : Ratings) : gateRatingList r ≠ [] := by
  obtain ⟨i, t, rt⟩ := r
  cases i <;> cases t <;> simp [gateRatingList, List.filterMap_cons]

/-- The mean of a non-empty list lies between bounds of its elements. -/
theorem listMean_bounds {l : List ℚ} {lo hi : ℚ} (hne : l ≠ [])
    (h : ∀ x ∈ l, lo ≤ x ∧ x ≤ hi) : lo ≤ listMean l ∧ listMean l ≤ hi := by
  have hlen : 0 < (l.length : ℚ) := by
    have := List.length_pos.mpr hne
    exact_mod_cast this
  have hsum_lo : (l.length : ℚ) * lo ≤ l.sum := by
    have := List.card_nsmul_le_sum l lo (fun x hx => (h x hx).1)
    simpa [nsmul_eq_mul] using this
  have hsum_hi : l.sum ≤ (l.length : ℚ) * hi := by
    have := List.sum_le_card_nsmul l hi (fun x hx => (h x hx).2)
    simpa [nsmul_eq_mul] using this
  unfold listMean
  constructor
  · rw [le_div_iff₀ hlen]
    linarith
  · rw [div_le_iff₀ hlen]
    linarith

/-- Each entry of the Scoring Engine's normalized rating list lies in 0–10
when the record's raw ratings respect the data-model scales. -/
theorem scoringRatingList_bounds {r : Ratings} (h : ratingsInRange r = true)
    {x : ℚ} (hx : x ∈ scoringRatingList r) : 0 ≤ x ∧ x ≤ 10 := by
  unfold ratingsInRange at h
  rw [Bool.and_eq_true, Bool.and_eq_true] at h
  obtain ⟨⟨hi, ht⟩, hrt⟩ := h
  unfold scoringRatingList at hx
  rcases List.mem_append.mp hx with hx12 | hx3
  · rcases List.mem_append.mp hx12 with hx1 | hx2
    · cases hii : r.imdb with
      | none => simp only [hii] at hx1; exact absurd hx1 (List.not_mem_nil x)
      | some v =>
        simp only [hii, List.mem_singleton] at hx1
        simp only [hii, decide_eq_true_eq] at hi
        subst hx1
        exact hi
    · cases htt : r.tmdb with
      | none => simp only [htt] at hx2; exact absurd hx2 (List.not_mem_nil x)
      | some v =>
        simp only [htt, List.mem_singleton] at hx2
        simp only [htt, decide_eq_true_eq] at ht
        subst hx2
        exact ht
  · cases hrr : r.rotten_tomatoes with
    | none => simp only [hrr] at hx3; exact absurd hx3 (List.not_mem_nil x)
    | some v =>
      simp only [hrr, List.mem_singleton] at hx3
      simp only [hrr, decide_eq_true_eq] at hrt
      subst hx3
      constructor
      · linarith [hrt.1]
      · linarith [hrt.2]

/-- The play-count component lies in 0–1. -/
theorem scorePlayCount_bounds (item : Item) :
    0 ≤ (scorePlayCount item).1 ∧ (scorePlayCount item).1 ≤ 1 := by
  simp only [scorePlayCount]
  split_ifs <;> norm_num

/-- The ratings component lies in 0–1 for in-range ratings. -/
theorem scoreRatings_bounds (cfg : AnalyzerConfig) {item : Item}
    (h : ratingsInRange item.ratings = true) :
    0 ≤ (scoreRatings cfg item).1 ∧ (scoreRatings cfg item).1 ≤ 1 := by
  simp only [scoreRatings]
  split_ifs with he hp h7 h5
  · norm_num
  · norm_num
  all_goals
    have hb := listMean_bounds he (fun x hx => scoringRatingList_bounds h hx)
  all_goals dsimp only
  all_goals constructor <;> linarith [hb.1, hb.2]

/-- The size component lies in 0–1. -/
theorem scoreSize_bounds (item : Item) :
    0 ≤ (scoreSize item).1 ∧ (scoreSize item).1 ≤ 1 := by
  simp only [scoreSize]
  split_ifs <;> norm_num

/-- A successful age component lies in 0–1. -/
theorem scoreAge_ok_bounds {env : DateEnv} {item : Item} {v : ℚ × String}
    (h : scoreAge env item = Except.ok v) : 0 ≤ v.1 ∧ v.1 ≤ 1 := by
  unfold scoreAge at h
  cases hta : truthy item.plex.added_at with
  | none =>
    rw [hta] at h
    injection h with h2
    subst h2
    norm_num
  | some s =>
    rw [hta] at h
    dsimp only at h
    cases hpd : env.parseDate s with
    | none =>
      rw [hpd] at h
      exact Except.noConfusion h
    | some added =>
      rw [hpd] at h
      dsimp only at h
      cases htl : truthy item.plex.last_viewed_at with
      | none =>
        rw [htl] at h
        split_ifs at h <;> (injection h with h2; subst h2; norm_num)
      | some s2 =>
        rw [htl] at h
        dsimp only at h
        cases hpd2 : env.parseDate s2 with
        | none =>
          rw [hpd2] at h
          exact Except.noConfusion h
        | some viewed =>
          rw [hpd2] at h
          dsimp only at h
          split_ifs at h <;> (injection h with h2; subst h2; norm_num)

/-- The quality component lies in 0–1. -/
theorem scoreQuality_bounds (item : Item) :
    0 ≤ (scoreQuality item).1 ∧ (scoreQuality item).1 ≤ 1 := by
  simp only [scoreQuality]
  split_ifs <;> constructor <;> norm_num [min_def]

/-- The age component does not raise when both date fields are absent,
empty, or parseable. -/
theorem scoreAge_isOk {env : DateEnv} {item : Item}
    (h1 : dateFieldOk env item.plex.added_at = true)
    (h2 : dateFieldOk env item.plex.last_viewed_at = true) :
    (scoreAge env item).isOk = true := by
  unfold dateFieldOk at h1 h2
  unfold scoreAge
  cases ha : item.plex.added_at with
  | none => simp [truthy, Except.isOk, Except.toBool]
  | some s =>
    rw [ha] at h1
    by_cases hs : s = ""
    · simp [truthy, hs, Except.isOk, Except.toBool]
    · simp only [hs, Bool.false_or, decide_eq_true_eq] at h1
      obtain ⟨d, hd⟩ := Option.isSome_iff_exists.mp (by simpa using h1)
      cases hl : item.plex.last_viewed_at with
      | none =>
        simp only [truthy, hs, if_false, hd]
        split_ifs <;> simp [Except.isOk, Except.toBool]
      | some s2 =>
        rw [hl] at h2
        by_cases hs2 : s2 = ""
        · simp only [truthy, hs, if_false, hd, hs2, if_true]
          split_ifs <;> simp [Except.isOk, Except.toBool]
        · simp only [hs2, Bool.false_or, decide_eq_true_eq] at h2
          obtain ⟨d2, hd2⟩ := Option.isSome_iff_exists.mp (by simpa using h2)
          simp only [truthy, hs, if_false, hd, hs2, hd2]
          split_ifs <;> simp [Except.isOk, Except.toBool]

/-- Scoring succeeds whenever both date fields are absent, empty, or
parseable. -/
theorem computeDeletionScore_isOk {cfg : AnalyzerConfig} {env : DateEnv} {item : Item}
    (h1 : dateFieldOk env item.plex.added_at = true)
    (h2 : dateFieldOk env item.plex.last_viewed_at = true) :
    (computeDeletionScore cfg env item).isOk = true := by
  have hok := scoreAge_isOk h1 h2
  unfold computeDeletionScore
  cases hsa : scoreAge env item with
  | error e =>
    rw [hsa] at hok
    simp [Except.isOk, Except.toBool] at hok
  | ok v => simp [Except.isOk, Except.toBool]

/-- A successful scoring call, as a witness pair. -/
theorem computeDeletionScore_exists_ok {cfg : AnalyzerConfig} {env : DateEnv} {item : Item}
    (h : (computeDeletionScore cfg env item).isOk = true) :
    ∃ p, computeDeletionScore cfg env item = Except.ok p := by
  cases hc : computeDeletionScore cfg env item with
  | error e => rw [hc] at h; simp [Except.isOk, Except.toBool] at h
  | ok p => exact ⟨p, rfl⟩

/-- Filtering for one score value commutes with an ordered insert whose
relation is non-strict comparison of that score: the inserted element passes
only elements with strictly greater score, so it lands in front of every
equal-scored element. -/
theorem filter_orderedInsert {α : Type} (k : α → ℚ) (s : ℚ) (a : α) (l : List α) :
    (List.orderedInsert (fun x y => k y ≤ k x) a l).filter (fun x => decide (k x = s))
      = if k a = s then a :: l.filter (fun x => decide (k x = s))
        else l.filter (fun x => decide (k x = s)) := by
  induction l with
  | nil =>
    simp only [List.orderedInsert, List.filter]
    by_cases has : k a = s <;> simp [has]
  | cons b l ih =>
    simp only [List.orderedInsert]
    by_cases hba : k b ≤ k a
    · rw [if_pos hba]
      by_cases has : k a = s
      · rw [if_pos has]
        simp [List.filter_cons, has]
      · rw [if_neg has]
        simp [List.filter_cons, has]
    · rw [if_neg hba]
      by_cases has : k a = s
      · rw [if_pos has]
        have hbs : ¬(k b = s) := by
          rw [← has]
          exact ne_of_gt (not_le.mp hba)
        simp [List.filter_cons, hbs, ih, has]
      · rw [if_neg has]
        simp [List.filter_cons, ih, has]

/-- Stability of the descending insertion sort: the elements of any one
score value keep their input order. -/
theorem filter_insertionSort {α : Type} (k : α → ℚ) (s : ℚ) (l : List α) :
    (List.insertionSort (fun x y => k y ≤ k x) l).filter (fun x => decide (k x = s))
      = l.filter (fun x => decide (k x = s)) := by
  induction l with
  | nil => rfl
  | cons b l ih =>
    simp only [List.insertionSort]
    rw [filter_orderedInsert]
    by_cases hbs : k b = s
    · rw [if_pos hbs, ih]
      simp [List.filter_cons, hbs]
    · rw [if_neg hbs, ih]
      simp [List.filter_cons, hbs]

/-- The sort of `analyze_items` produces a list sorted by descending
deletion score. -/
theorem sorted_sortByScoreDesc (l : List Item) :
    (sortByScoreDesc l).Sorted (fun a b => scoreKey b ≤ scoreKey a) := by
  haveI : IsTotal Item (fun a b => scoreKey b ≤ scoreKey a) :=
    ⟨fun a b => le_total (scoreKey b) (scoreKey a)⟩
  haveI : IsTrans Item (fun a b => scoreKey b ≤ scoreKey a) :=
    ⟨fun a b c hab hbc => le_trans hbc hab⟩
  exact List.sorted_insertionSort _ l

/-- Under well-formed dates, the per-item loop returns the enriched records
in input order. -/
theorem analyzeList_eq_map (cfg : AnalyzerConfig) (env : DateEnv) (items : List Item)
    (h : ∀ it ∈ items, dateFieldOk env it.plex.added_at = true
      ∧ dateFieldOk env it.plex.last_viewed_at = true) :
    analyzeList cfg env items = Except.ok (items.map (enrichItem cfg env)) := by
  induction items with
  | nil => rfl
  | cons it rest ih =>
    have hit := h it (List.mem_cons_self it rest)
    obtain ⟨p, hp⟩ := computeDeletionScore_exists_ok (computeDeletionScore_isOk hit.1 hit.2)
    simp only [analyzeList]
    rw [hp, ih (fun x hx => h x (List.mem_cons_of_mem it hx))]
    rfl

/-- Under well-formed dates and a non-empty batch, `analyze_items` succeeds
and returns the pair of the mutated caller list (input order) and the
sorted result. -/
theorem analyzeItems_eq (cfg : AnalyzerConfig) (env : DateEnv) (items : List Item)
    (hne : items ≠ [])
    (h : ∀ it ∈ items, dateFieldOk env it.plex.added_at = true
      ∧ dateFieldOk env it.plex.last_viewed_at = true) :
    analyzeItems cfg env true items
      = Except.ok (items.map (enrichItem cfg env),
          sortByScoreDesc (items.map (enrichItem cfg env))) := by
  unfold analyzeItems
  rw [analyzeList_eq_map cfg env items h]
  have hempty : (items.map (enrichItem cfg env)).isEmpty = false := by
    cases items with
    | nil => exact absurd rfl hne
    | cons a l => rfl
  simp [hempty]

/-! ## Claims -/

/-- C1 (counterexample): invoked with `execute=True` (`dry_run=False`) and
`confirm=False`, a deletion run with a non-empty plan skips the confirmation
prompt and does reach the `EXECUTING` state (`_perform_deletion` is
invoked); it is not a no-op simulation, although the plan record is
persisted. -/
theorem execute_noConfirm_reaches_executing :
    (deleteControlFlow false false false true).executed = true
    ∧ (deleteControlFlow false false false true).prompted = false
    ∧ (deleteControlFlow false false false true).planPersisted = true := by
  decide

/-- C1 (amended): a deletion run reaches the `EXECUTING` state exactly when
items met the criteria, the execute flag is set (`dry_run=False`) and either
the confirmation prompt was disabled (`confirm=False`) or the user answered
yes; in particular `execute=True, confirm=False` executes without any
confirmation.  Whenever any item met the criteria a plan record is
persisted, and every dry run is a no-op simulation. -/
theorem delete_executed_iff :
    ∀ dryRun confirm userConfirmed hasItems : Bool,
      (deleteControlFlow dryRun confirm userConfirmed hasItems).executed
          = (hasItems && !dryRun && (!confirm || userConfirmed))
        ∧ (deleteControlFlow dryRun confirm userConfirmed hasItems).planPersisted
          = hasItems := by
  decide

/-- C3 (counterexample): for a ratings mapping with only an IMDb entry of
8.5, the Scoring Engine's rating list is `[8.5]` (average 8.5, protected at
the default threshold 8.0) while the safety gate's list is `[8.5, 0]`
(average 4.25): the absent Rotten-Tomatoes entry is counted as 0 by the gate
only, and a record with a qualifying score is recommended although the
scoring component regards it as protected. -/
theorem ratingNormalization_drift :
    scoringRatingList ⟨some (17 / 2), none, none⟩ = [17 / 2]
    ∧ gateRatingList ⟨some (17 / 2), none, none⟩ = [17 / 2, 0]
    ∧ (scoreRatings defaultConfig { ratings := ⟨some (17 / 2), none, none⟩ }).1 = 0
    ∧ shouldRecommendDeletion defaultThresholds
        { ratings := ⟨some (17 / 2), none, none⟩ } (7 / 10) = true := by
  refine ⟨by norm_num [scoringRatingList],
    by norm_num [gateRatingList, List.filterMap_cons], ?_, ?_⟩
  · norm_num [scoreRatings, scoringRatingList, listMean, defaultConfig, defaultThresholds]
  · norm_num [shouldRecommendDeletion, gateRatingList, List.filterMap_cons, listMean,
      defaultThresholds]

/-- C3 (amended): when a Rotten-Tomatoes entry is present, the safety gate
and the Scoring Engine build the same normalized rating list (and hence the
same average); only for an absent entry does the gate add a spurious 0. -/
theorem gateRatingList_eq_of_rt_present (r : Ratings) (q : ℚ)
    (h : r.rotten_tomatoes = some q) : gateRatingList r = scoringRatingList r := by
  obtain ⟨i, t, rt⟩ := r
  simp only at h
  subst h
  cases i <;> cases t <;> simp [gateRatingList, scoringRatingList]

/-- C3 witness: the two lists agree on a mapping with all three sources. -/
theorem gateRatingList_eq_of_rt_present_witness :
    gateRatingList ⟨some 7, some 6, some 50⟩ = scoringRatingList ⟨some 7, some 6, some 50⟩ :=
  gateRatingList_eq_of_rt_present ⟨some 7, some 6, some 50⟩ 50 rfl

/-- C7: restoring a backup immediately after creating it succeeds and the
recomputed checksum of the payload equals the stored checksum; mutating the
stored payload out of band (any mutation that changes the canonical
serialization, which is exactly a change of the payload's JSON value) makes
restore with verification fail with the distinct integrity error. -/
theorem backup_roundtrip_tamper (d d2 : Json) (ca t : String)
    (m : List (String × Json)) (h : dumps d2 ≠ dumps d) :
    restoreBackup (createBackup ca t m d) true = Except.ok (createBackup ca t m d)
    ∧ (createBackup ca t m d).checksum
        = some (sha256Hex (dumps (createBackup ca t m d).data))
    ∧ restoreBackup { createBackup ca t m d with data := d2 } true
        = Except.error (BackupError.checksumMismatch
            (sha256Hex (dumps d)) (sha256Hex (dumps d2))) := by
  refine ⟨?_, rfl, ?_⟩
  · simp [restoreBackup, createBackup]
  · have hne : sha256Hex (dumps d2) ≠ sha256Hex (dumps d) :=
      fun he => h (sha256Hex_injective he)
    simp [restoreBackup, createBackup, hne]

/-- C7 witness: round trip and tamper detection at a concrete payload. -/
theorem backup_roundtrip_tamper_witness :
    restoreBackup (createBackup "2024-01-01" "deletion_plan" [] (Json.bool true)) true
        = Except.ok (createBackup "2024-01-01" "deletion_plan" [] (Json.bool true))
    ∧ (createBackup "2024-01-01" "deletion_plan" [] (Json.bool true)).checksum
        = some (sha256Hex (dumps (createBackup "2024-01-01" "deletion_plan" []
            (Json.bool true)).data))
    ∧ restoreBackup { createBackup "2024-01-01" "deletion_plan" [] (Json.bool true) with
          data := Json.null } true
        = Except.error (BackupError.checksumMismatch
            (sha256Hex (dumps (Json.bool true))) (sha256Hex (dumps Json.null))) :=
  backup_roundtrip_tamper (Json.bool true) Json.null "2024-01-01" "deletion_plan" []
    (by simp [dumps])

/-- C8: the size component is monotonically non-decreasing in `size_bytes`,
all other fields held fixed. -/
theorem scoreSize_monotone (it : Item) (s₁ s₂ : Nat) (h : s₁ ≤ s₂) :
    (scoreSize { it with media := { it.media with size_bytes := s₁ } }).1
      ≤ (scoreSize { it with media := { it.media with size_bytes := s₂ } }).1 := by
  have hle : ((s₁ : ℚ)) / (1024 ^ 3 : ℚ) ≤ (s₂ : ℚ) / (1024 ^ 3 : ℚ) := by
    gcongr
  simp only [scoreSize]
  split_ifs <;> linarith

/-- C8 witness: a 0-byte and a 16 GiB record. -/
theorem scoreSize_monotone_witness :
    (scoreSize { ({} : Item) with media := { ({} : Item).media with size_bytes := 0 } }).1
      ≤ (scoreSize { ({} : Item) with
          media := { ({} : Item).media with size_bytes := 17179869184 } }).1 :=
  scoreSize_monotone {} 0 17179869184 (by norm_num)

/-- C9 (counterexample): a backup file whose JSON lacks the `checksum` key is
returned by `restore_backup` with `verify_checksum=True` without any
verification and without an error: the payload is returned silently
unverified. -/
theorem restore_missing_checksum_silent :
    restoreBackup ⟨"2024-01-01", "deletion_plan", [], Json.null, none⟩ true
        = Except.ok ⟨"2024-01-01", "deletion_plan", [], Json.null, none⟩
    ∧ (⟨"2024-01-01", "deletion_plan", [], Json.null, none⟩ : BackupContent).checksum
        = none :=
  ⟨rfl, rfl⟩

/-- C9 (amended): for every backup file that does contain a stored checksum,
restore with verification either returns the payload with the stored
checksum equal to the recomputed one, or fails with the distinct integrity
error; only a file lacking the `checksum` key is returned unverified. -/
theorem restore_with_checksum_verified (content : BackupContent) (stored : String)
    (h : content.checksum = some stored) :
    (restoreBackup content true = Except.ok content
        → stored = sha256Hex (dumps content.data))
    ∧ (stored ≠ sha256Hex (dumps content.data)
        → restoreBackup content true
            = Except.error (BackupError.checksumMismatch stored
                (sha256Hex (dumps content.data)))) := by
  constructor
  · intro hok
    by_contra hne
    simp only [restoreBackup, h] at hok
    rw [if_pos (fun he => hne he.symm)] at hok
    exact Except.noConfusion hok
  · intro hne
    simp only [restoreBackup, h]
    rw [if_pos (fun he => hne he.symm)]

/-- C9 witness: a freshly created backup carries a checksum and restore
verifies it. -/
theorem restore_with_checksum_verified_witness :
    (restoreBackup (createBackup "2024-01-01" "metadata" [] Json.null) true
        = Except.ok (createBackup "2024-01-01" "metadata" [] Json.null)
        → sha256Hex (dumps Json.null)
            = sha256Hex (dumps (createBackup "2024-01-01" "metadata" [] Json.null).data))
    ∧ (sha256Hex (dumps Json.null)
          ≠ sha256Hex (dumps (createBackup "2024-01-01" "metadata" [] Json.null).data)
        → restoreBackup (createBackup "2024-01-01" "metadata" [] Json.null) true
            = Except.error (BackupError.checksumMismatch (sha256Hex (dumps Json.null))
                (sha256Hex (dumps (createBackup "2024-01-01" "metadata" []
                  Json.null).data)))) :=
  restore_with_checksum_verified (createBackup "2024-01-01" "metadata" [] Json.null)
    (sha256Hex (dumps Json.null)) rfl

/-- C2 (counterexample): a record whose only external rating is IMDb 9.2 has
normalized average rating 9.2 ≥ 8.0 (the default `never_delete_rating`), its
rating component is 0 (protected), yet its deletion score is 0.75 ≥ 0.7 and
`_should_recommend_deletion` returns `True`: the gate's average includes a 0
for the absent Rotten-Tomatoes entry, defeating the protection. -/
theorem protection_bypassed_when_rt_absent :
    listMean (scoringRatingList protectedItem.ratings) = 46 / 5
    ∧ (8 : ℚ) ≤ 46 / 5
    ∧ scoreOf (computeDeletionScore defaultConfig testEnv protectedItem) = some (3 / 4)
    ∧ shouldRecommendDeletion defaultThresholds protectedItem (3 / 4) = true := by
  refine ⟨?_, by norm_num, ?_, ?_⟩
  · norm_num [protectedItem, scoringRatingList, listMean]
  · norm_num +decide [scoreOf, computeDeletionScore, protectedItem, defaultConfig,
      defaultWeights, defaultThresholds, testEnv, scorePlayCount, scoreRatings,
      scoringRatingList, ratingSourceLabels, listMean, scoreSize, scoreAge,
      truthy, scoreQuality, strContains, strLower, min_def]
  · norm_num [shouldRecommendDeletion, defaultThresholds, gateRatingList,
      List.filterMap_cons, listMean, protectedItem]

/-- C2 (amended): whenever the safety gate's own rating average (which counts
an absent Rotten-Tomatoes entry as 0) reaches `never_delete_rating`,
`_should_recommend_deletion` returns `False` regardless of the score and of
every other field. -/
theorem gate_protection_recommends_false (t : Thresholds) (item : Item) (score : ℚ)
    (h : t.never_delete_rating ≤ listMean (gateRatingList item.ratings)) :
    shouldRecommendDeletion t item score = false := by
  simp only [shouldRecommendDeletion]
  split_ifs with h1 h2
  any_goals rfl
  all_goals exact absurd h2 (gateRatingList_ne_nil item.ratings)

/-- C2 witness: a record rated 9/9/90% is never recommended, even at
score 1. -/
theorem gate_protection_recommends_false_witness :
    shouldRecommendDeletion defaultThresholds
      { ratings := ⟨some 9, some 9, some 90⟩ } 1 = false :=
  gate_protection_recommends_false defaultThresholds
    { ratings := ⟨some 9, some 9, some 90⟩ } 1
    (by norm_num [defaultThresholds, gateRatingList, List.filterMap_cons, listMean])

/-- C4 (counterexample): a record with the malformed date string
`"not-a-date"` in `added_at` makes `compute_deletion_score` raise the
`ValueError` of `datetime.fromisoformat`: scoring of the record aborts
instead of degrading to a neutral default. -/
theorem malformed_date_aborts_scoring :
    computeDeletionScore defaultConfig testEnv malformedItem
      = Except.error (ScoreError.valueError "not-a-date") := by
  rfl

/-- C4 (amended): on every record whose date strings, when present and
non-empty, are parseable, scoring succeeds and returns a score together with
the full six-line rationale (a missing date degrades to the component's
neutral default); a malformed date string instead aborts scoring of the
whole record with a `ValueError`. -/
theorem scoring_succeeds_when_dates_wellformed (cfg : AnalyzerConfig) (env : DateEnv)
    (item : Item) (h1 : dateFieldOk env item.plex.added_at = true)
    (h2 : dateFieldOk env item.plex.last_viewed_at = true) :
    (computeDeletionScore cfg env item).isOk = true
    ∧ (rationaleOf (computeDeletionScore cfg env item)).length = 6 := by
  refine ⟨computeDeletionScore_isOk h1 h2, ?_⟩
  have hok := scoreAge_isOk h1 h2
  unfold computeDeletionScore
  cases hsa : scoreAge env item with
  | error e =>
    rw [hsa] at hok
    simp [Except.isOk, Except.toBool] at hok
  | ok v => simp [rationaleOf]

/-- C4 witness: a record with a parseable `added_at` and no
`last_viewed_at`. -/
theorem scoring_succeeds_when_dates_wellformed_witness :
    (computeDeletionScore defaultConfig testEnv
        { plex := { view_count := 2, added_at := some "2023-01-01", last_viewed_at := none } }).isOk
      = true
    ∧ (rationaleOf (computeDeletionScore defaultConfig testEnv
        { plex := { view_count := 2, added_at := some "2023-01-01", last_viewed_at := none } })).length
      = 6 :=
  scoring_succeeds_when_dates_wellformed defaultConfig testEnv
    { plex := { view_count := 2, added_at := some "2023-01-01", last_viewed_at := none } }
    (by decide) (by decide)

/-- C5 (counterexample): the weight configuration (0.31, 0.26, 0.21, 0.16,
0.10) sums to 1.04 and passes `_validate_config`; on a record that maxes
every component (never watched, IMDb 0.0, 11 GiB, added 400 days ago and
never viewed, 480p) the total deletion score is 1.04 > 1. -/
theorem accepted_weights_score_above_one :
    validateConfig ⟨overWeights, defaultThresholds⟩ = true
    ∧ weightsNonneg overWeights = true
    ∧ ratingsInRange maxItem.ratings = true
    ∧ scoreOf (computeDeletionScore ⟨overWeights, defaultThresholds⟩ testEnv maxItem)
        = some (26 / 25)
    ∧ ¬((26 : ℚ) / 25 ≤ 1) := by
  refine ⟨?_, ?_, ?_, ?_, by norm_num⟩
  · norm_num [validateConfig, validateWeights, validateThresholds, weightSum,
      overWeights, defaultThresholds, Bool.and_eq_true]
  · norm_num [weightsNonneg, overWeights]
  · norm_num [ratingsInRange, maxItem, Bool.and_eq_true]
  · norm_num +decide [scoreOf, computeDeletionScore, maxItem, overWeights,
      defaultThresholds, testEnv, scorePlayCount, scoreRatings,
      scoringRatingList, ratingSourceLabels, listMean, scoreSize, scoreAge,
      truthy, scoreQuality, strContains, strLower, min_def]

/-- C5 (amended): for every configuration accepted by `_validate_config`
whose weights are also individually non-negative, and every record whose
present ratings respect the data-model scales, a successful deletion score
lies in 0 ≤ score ≤ 1.05 (the validation tolerance) — not 1.0. -/
theorem computeDeletionScore_bounds (cfg : AnalyzerConfig) (env : DateEnv) (item : Item)
    (hval : validateConfig cfg = true)
    (hw : weightsNonneg cfg.weights = true)
    (hr : ratingsInRange item.ratings = true)
    (hok : (computeDeletionScore cfg env item).isOk = true) :
    0 ≤ (scoreOf (computeDeletionScore cfg env item)).getD 0
    ∧ (scoreOf (computeDeletionScore cfg env item)).getD 0 ≤ 21 / 20 := by
  have hsum : weightSum cfg.weights ≤ 21 / 20 := by
    simp only [validateConfig, Bool.and_eq_true, validateWeights,
      decide_eq_true_eq] at hval
    linarith [hval.1.2]
  simp only [weightsNonneg, decide_eq_true_eq] at hw
  obtain ⟨hw1, hw2, hw3, hw4, hw5⟩ := hw
  cases hsa : scoreAge env item with
  | error e =>
    unfold computeDeletionScore at hok
    rw [hsa] at hok
    simp [Except.isOk, Except.toBool] at hok
  | ok v =>
    have hp := scorePlayCount_bounds item
    have hrb := scoreRatings_bounds cfg hr
    have hs := scoreSize_bounds item
    have ha := scoreAge_ok_bounds hsa
    have hq := scoreQuality_bounds item
    unfold computeDeletionScore
    rw [hsa]
    dsimp only
    simp only [scoreOf, Option.getD_some]
    unfold weightSum at hsum
    constructor
    · have m1 := mul_nonneg hp.1 hw1
      have m2 := mul_nonneg hrb.1 hw2
      have m3 := mul_nonneg hs.1 hw3
      have m4 := mul_nonneg ha.1 hw4
      have m5 := mul_nonneg hq.1 hw5
      linarith
    · have u1 := mul_le_of_le_one_left hw1 hp.2
      have u2 := mul_le_of_le_one_left hw2 hrb.2
      have u3 := mul_le_of_le_one_left hw3 hs.2
      have u4 := mul_le_of_le_one_left hw4 ha.2
      have u5 := mul_le_of_le_one_left hw5 hq.2
      linarith

/-- C5 witness: the default configuration on the all-defaults record. -/
theorem computeDeletionScore_bounds_witness :
    0 ≤ (scoreOf (computeDeletionScore defaultConfig testEnv {})).getD 0
    ∧ (scoreOf (computeDeletionScore defaultConfig testEnv {})).getD 0 ≤ 21 / 20 :=
  computeDeletionScore_bounds defaultConfig testEnv {}
    (by norm_num [validateConfig, validateWeights, validateThresholds, weightSum,
      defaultConfig, defaultWeights, defaultThresholds, Bool.and_eq_true])
    (by norm_num [weightsNonneg, defaultConfig, defaultWeights])
    (by rfl) (by rfl)

/-- C6: on every batch on which `analyze_items` returns (non-empty, dates
well-formed), the returned list is sorted by `deletion_score` descending,
and for every score value the records carrying it appear in the same
relative order as in the (enriched, input-ordered) caller list — Python's
`list.sort` is stable and `reverse=True` only flips the comparison. -/
theorem analyzeItems_sorted_stable (cfg : AnalyzerConfig) (env : DateEnv)
    (items : List Item) (hne : items ≠ [])
    (h : ∀ it ∈ items, dateFieldOk env it.plex.added_at = true
      ∧ dateFieldOk env it.plex.last_viewed_at = true) :
    ((analyzeItems cfg env true items).toOption.getD ([], [])).2.Sorted
        (fun a b => scoreKey b ≤ scoreKey a)
    ∧ ∀ s : ℚ,
        ((analyzeItems cfg env true items).toOption.getD ([], [])).2.filter
            (fun it => decide (scoreKey it = s))
          = ((analyzeItems cfg env true items).toOption.getD ([], [])).1.filter
            (fun it => decide (scoreKey it = s)) := by
  rw [analyzeItems_eq cfg env items hne h]
  constructor
  · exact sorted_sortByScoreDesc _
  · intro s
    exact filter_insertionSort scoreKey s _

/-- C6 witness: a two-record batch (one never watched, one watched five
times), with the filter property instantiated at score 0. -/
theorem analyzeItems_sorted_stable_witness :
    ((analyzeItems defaultConfig testEnv true
        [{}, { plex := { view_count := 5 } }]).toOption.getD ([], [])).2.Sorted
        (fun a b => scoreKey b ≤ scoreKey a)
    ∧ ((analyzeItems defaultConfig testEnv true
        [{}, { plex := { view_count := 5 } }]).toOption.getD ([], [])).2.filter
          (fun it => decide (scoreKey it = 0))
        = ((analyzeItems defaultConfig testEnv true
        [{}, { plex := { view_count := 5 } }]).toOption.getD ([], [])).1.filter
          (fun it => decide (scoreKey it = 0)) :=
  ⟨(analyzeItems_sorted_stable defaultConfig testEnv
      [{}, { plex := { view_count := 5 } }] (by simp) (by decide)).1,
    (analyzeItems_sorted_stable defaultConfig testEnv
      [{}, { plex := { view_count := 5 } }] (by simp) (by decide)).2 0⟩

/-- C10: modelling the in-place mutation as explicit state passing, a
successful `analyze_items` run leaves the caller's list (first component)
equal to the input records each updated with exactly the three `deletion_*`
keys — `title`, `year`, `plex`, `media` and `ratings` are untouched — and
the returned list (second component) is a permutation of those same updated
records, so the caller's records are modified even if the return value is
discarded. -/
theorem analyzeItems_mutates_in_place (cfg : AnalyzerConfig) (env : DateEnv)
    (items : List Item) (hne : items ≠ [])
    (h : ∀ it ∈ items, dateFieldOk env it.plex.added_at = true
      ∧ dateFieldOk env it.plex.last_viewed_at = true) :
    ((analyzeItems cfg env true items).toOption.getD ([], [])).1
        = items.map (enrichItem cfg env)
    ∧ (∀ it ∈ items,
        (enrichItem cfg env it).title = it.title
        ∧ (enrichItem cfg env it).year = it.year
        ∧ (enrichItem cfg env it).plex = it.plex
        ∧ (enrichItem cfg env it).media = it.media
        ∧ (enrichItem cfg env it).ratings = it.ratings
        ∧ (enrichItem cfg env it).deletion_score
            = scoreOf (computeDeletionScore cfg env it)
        ∧ (enrichItem cfg env it).deletion_rationale
            = some (rationaleOf (computeDeletionScore cfg env it))
        ∧ (enrichItem cfg env it).deletion_recommended ≠ none)
    ∧ ((analyzeItems cfg env true items).toOption.getD ([], [])).2.Perm
        ((analyzeItems cfg env true items).toOption.getD ([], [])).1 := by
  rw [analyzeItems_eq cfg env items hne h]
  refine ⟨rfl, ?_, List.perm_insertionSort _ _⟩
  intro it hit
  have hd := h it hit
  obtain ⟨p, hp⟩ := computeDeletionScore_exists_ok (computeDeletionScore_isOk hd.1 hd.2)
  unfold enrichItem
  rw [hp]
  simp [scoreOf, rationaleOf, hp]

/-- C10 witness: the same two-record batch, with the per-record frame
conditions instantiated at the first record. -/
theorem analyzeItems_mutates_in_place_witness :
    ((analyzeItems defaultConfig testEnv true
        [{}, { plex := { view_count := 5 } }]).toOption.getD ([], [])).1
        = [({} : Item), { plex := { view_count := 5 } }].map (enrichItem defaultConfig testEnv)
    ∧ ((enrichItem defaultConfig testEnv {}).title = ({} : Item).title
        ∧ (enrichItem defaultConfig testEnv {}).year = ({} : Item).year
        ∧ (enrichItem defaultConfig testEnv {}).plex = ({} : Item).plex
        ∧ (enrichItem defaultConfig testEnv {}).media = ({} : Item).media
        ∧ (enrichItem defaultConfig testEnv {}).ratings = ({} : Item).ratings
        ∧ (enrichItem defaultConfig testEnv {}).deletion_score
            = scoreOf (computeDeletionScore defaultConfig testEnv {})
        ∧ (enrichItem defaultConfig testEnv {}).deletion_rationale
            = some (rationaleOf (computeDeletionScore defaultConfig testEnv {}))
        ∧ (enrichItem defaultConfig testEnv {}).deletion_recommended ≠ none)
    ∧ ((analyzeItems defaultConfig testEnv true
        [{}, { plex := { view_count := 5 } }]).toOption.getD ([], [])).2.Perm
        ((analyzeItems defaultConfig testEnv true
        [{}, { plex := { view_count := 5 } }]).toOption.getD ([], [])).1 :=
  ⟨(analyzeItems_mutates_in_place defaultConfig testEnv
      [{}, { plex := { view_count := 5 } }] (by simp) (by decide)).1,
    (analyzeItems_mutates_in_place defaultConfig testEnv
      [{}, { plex := { view_count := 5 } }] (by simp) (by decide)).2.1 {} (by simp),
    (analyzeItems_mutates_in_place defaultConfig testEnv
      [{}, { plex := { view_count := 5 } }] (by simp) (by decide)).2.2⟩

end PlexIQ
